import Mathlib

/-!
Verification development for the AMeDAS fetch-and-cache utility
(src/notebooks/amedas/download.py).

The Python module is shallowly embedded here:

* `PyDate` models `datetime.date` as a plain year/month/day record (only the
  fields the program reads; calendar validity is irrelevant to the modelled
  code paths and is supplied as a hypothesis where a claim needs it).
* `AmedasNode` models the station class.  Its constructor performs
  `float(height)` and `int(block_no)`, both of which can raise, so the
  embedded constructor `AmedasNode.make` is `Option`-valued.
* The filesystem is a `World`: a list of existing directories and a list of
  (path, content) files, with paths as segment lists.
* The network is an oracle `Net : String → NetResult`; `NetResult.failure`
  stands for any exception raised inside `requests.get`/decoding, which the
  source catches in `_download_html`.
* Side effects (network calls made, log lines emitted) are returned
  explicitly so that claims about "performs a network call" and "logged
  warning" are statable.
-/

/-- Model of `datetime.date`: the program only ever reads `.year`, `.month`,
`.day` and rebuilds dates with `date(year=..., month=..., day=1)`. -/
structure PyDate where
  year : Nat
  month : Nat
  day : Nat
deriving DecidableEq, Repr

/-- Python `f"{n:02}"`: zero-pad to width 2 (wider numbers print unpadded). -/
def pad2 (n : Nat) : String :=
  if n < 10 then "0" ++ toString n else toString n

/-- Python `strftime` `%Y`: zero-pad the year to width 4. -/
def pad4 (n : Nat) : String :=
  if n < 10 then "000" ++ toString n
  else if n < 100 then "00" ++ toString n
  else if n < 1000 then "0" ++ toString n
  else toString n

/-- Python whitespace recognised by `str.strip` (ASCII subset). -/
def isPySpace (c : Char) : Bool :=
  c = ' ' || c = '\t' || c = '\n' || c = '\r' || c = '\x0b' || c = '\x0c'

/-- Model of `str.strip()`: drop whitespace from both ends.  (Implemented on
char lists so that it reduces in the kernel; the library `String.trim` is
well-founded-recursive and does not.) -/
def stripChars (l : List Char) : List Char :=
  ((l.dropWhile isPySpace).reverse.dropWhile isPySpace).reverse

/-- Model of `str.split(sep)` for a one-character separator: consecutive and
boundary separators yield empty pieces, as in Python. -/
def splitSep (sep : Char) : List Char → List (List Char)
  | [] => [[]]
  | c :: rest =>
      let r := splitSep sep rest
      if c = sep then [] :: r
      else
        match r with
        | h :: t => (c :: h) :: t
        | [] => [[c]]

/-- Nonempty all-digit char list. -/
def isDigitChars (l : List Char) : Bool :=
  !l.isEmpty && l.all Char.isDigit

/-- Numeric value of an all-digit char list. -/
def digitsVal (l : List Char) : Nat :=
  l.foldl (fun acc c => acc * 10 + (c.toNat - 48)) 0

/-- Drop one leading sign character, if present. -/
def dropSign : List Char → List Char
  | '+' :: rest => rest
  | '-' :: rest => rest
  | l => l

/-- Model of Python `int(s)` on strings: optional surrounding whitespace,
optional sign, then decimal digits; anything else raises (`none`).  (Digit
separators and non-ASCII digits, which CPython also accepts, are not
modelled; no station data uses them.) -/
def parsePyInt (s : String) : Option Int :=
  match stripChars s.data with
  | '-' :: rest => if isDigitChars rest then some (-(digitsVal rest : Int)) else none
  | '+' :: rest => if isDigitChars rest then some ((digitsVal rest : Int)) else none
  | l => if isDigitChars l then some ((digitsVal l : Int)) else none

/-- Mantissa of a float literal: `digits`, `digits.`, `.digits` or
`digits.digits`. -/
def isMantissaChars (l : List Char) : Bool :=
  match splitSep '.' l with
  | [a] => isDigitChars a
  | [a, b] => (isDigitChars a && (b.isEmpty || isDigitChars b)) || (a.isEmpty && isDigitChars b)
  | _ => false

/-- Model of Python `float(s)` acceptance on strings: optional surrounding
whitespace, optional sign, a decimal mantissa, optional exponent with its own
optional sign.  (`inf`, `nan` and digit separators, which CPython also
accepts, are not modelled; the reference table only carries plain decimals.)
The numeric value is never used by the program, so only acceptance is
modelled. -/
def isPyFloat (s : String) : Bool :=
  let t := dropSign (stripChars s.data)
  match splitSep 'e' (t.map Char.toLower) with
  | [m] => isMantissaChars m
  | [m, ex] => isMantissaChars m && isDigitChars (dropSign ex)
  | _ => false

/-- Model of class `AmedasNode`.  `height` keeps the raw string (its float
value is never read by the program); `url_part` is the field computed in
`__init__` as `"a" if int(block_no) < 10000 else "s"`. -/
structure AmedasNode where
  prec_no : String
  block_no : String
  name : String
  id : String
  area_code : String
  group_code : String
  height : String
  url_part : String
deriving DecidableEq, Repr

/-- Model of `AmedasNode.__init__`: `float(height)` and `int(block_no)` can
both raise, so construction is `Option`-valued; on success `url_part` is
derived from the numeric block code exactly as in the source. -/
def AmedasNode.make (prec_no block_no name _id area_code group_code height : String) :
    Option AmedasNode :=
  if isPyFloat height then
    match parsePyInt block_no with
    | some n =>
        some { prec_no := prec_no, block_no := block_no, name := name, id := _id,
               area_code := area_code, group_code := group_code, height := height,
               url_part := if n < 10000 then "a" else "s" }
    | none => none
  else none

/-- Model of `AmedasNode._construct_url`.  `none` is the `return None` of the
unknown-resolution branch (which also logs a warning; the warning is
reconstructed in `get_data` below from the `none` result, to which it is
exactly equivalent). -/
def AmedasNode.construct_url (self : AmedasNode) (data_type : String)
    (target_date : PyDate) : Option String :=
  if data_type = "10min" || data_type = "hourly" || data_type = "daily" then
    some ("http://www.data.jma.go.jp/obd/stats/etrn/view/" ++ data_type ++ "_" ++
      self.url_part ++ "1.php?" ++
      "prec_no=" ++ self.prec_no ++ "&block_no=" ++ self.block_no ++
      "&year=" ++ toString target_date.year ++
      "&month=" ++ pad2 target_date.month ++ "&day=" ++ pad2 target_date.day ++ "&view=")
  else if data_type = "real-time" then
    some ("http://www.jma.go.jp/jp/amedas_h/today-" ++ self.id ++ ".html")
  else none

/-- Filesystem path, as the list of its segments (the `Path` the source
builds segment by segment). -/
abbrev FsPath := List String

/-- Model of the filesystem: the set of directories that exist and the files
that exist with their text contents. -/
structure World where
  dirs : List FsPath
  files : List (FsPath × String)
deriving DecidableEq, Repr

/-- Result of one `requests.get`: either a response body (possibly empty) or
an exception raised inside the `try` block of `_download_html`. -/
inductive NetResult where
  | success (body : String)
  | failure
deriving DecidableEq, Repr

/-- Network oracle: what `requests.get` would yield for each URL. -/
abbrev Net := String → NetResult

/-- The nonempty prefixes of a segment list: the cumulative `current_dir`
values that `create_dir`'s loop calls `mkdir` on. -/
def prefixesOf (l : List String) : List FsPath :=
  (List.range l.length).map (fun i => l.take (i + 1))

/-- Model of `create_dir`: `mkdir(parents=True, exist_ok=True)` on each
cumulative prefix of `path_list`, returning the filesystem with those
directories added (the function's return value is the full path, which the
caller recomputes here as the segment list itself). -/
def create_dir (w : World) (path_list : List String) : World :=
  { w with dirs := w.dirs ++ prefixesOf path_list }

/-- Did a file exist at `p` (the `file_path.exists()` check)? -/
def fileExists (files : List (FsPath × String)) (p : FsPath) : Bool :=
  files.any (fun q => q.1 == p)

/-- Content of the file at `p`, if any. -/
def getFile (files : List (FsPath × String)) (p : FsPath) : Option String :=
  (files.filter (fun q => q.1 == p)).head?.map (fun q => q.2)

/-- Model of `open(file_path, "w")` followed by a full write: replaces any
existing file at `p` with `content` (the utf-8-sig byte encoding is not
modelled; contents are compared as text). -/
def setFile (files : List (FsPath × String)) (p : FsPath) (content : String) :
    List (FsPath × String) :=
  files.filter (fun q => q.1 != p) ++ [(p, content)]

/-- Result of `get_data`/`_download_html`: the `str | None` return value plus
the effects the call performed (URLs actually fetched over the network, log
lines emitted). -/
structure FetchResult where
  html : Option String
  netCalls : List String
  logs : List String
deriving DecidableEq, Repr

/-- Model of `AmedasNode._download_html`.  With `url = None` the source calls
`requests.get(None)`, which raises `MissingSchema` before any network access;
the `except` clause catches it (and any network/decoding exception, modelled
by `NetResult.failure`), logs an error and returns `None`.  Only an actual
fetch of a URL is recorded in `netCalls`. -/
def AmedasNode.download_html (net : Net) (url : Option String) : FetchResult :=
  match url with
  | none => { html := none, netCalls := [], logs := ["error: --download error--"] }
  | some u =>
      match net u with
      | NetResult.success body => { html := some body, netCalls := [u], logs := [] }
      | NetResult.failure =>
          { html := none, netCalls := [u], logs := ["error: --download error--"] }

/-- Render of `Option` values inside f-strings/log formats (`None` prints as
the string `None`). -/
def renderOptStr : Option String → String
  | none => "None"
  | some s => s

/-- Model of `AmedasNode.get_data`: construct the URL, log it, download.  The
`Unknown data type` warning is emitted inside `_construct_url` exactly on the
fall-through branch, i.e. exactly when the result is `none`, so it is
reconstructed here from the `none` result. -/
def AmedasNode.get_data (self : AmedasNode) (net : Net) (data_type : String)
    (target_date : PyDate) : FetchResult :=
  let url := self.construct_url data_type target_date
  let warnLogs := if url.isNone then ["warning: Unknown data type: " ++ data_type] else []
  let dl := AmedasNode.download_html net url
  { html := dl.html,
    netCalls := dl.netCalls,
    logs := warnLogs ++ ["info: --target url-- " ++ renderOptStr url] ++ dl.logs }

/-- The date `save` actually uses: first of the month for daily resolution,
the given date otherwise. -/
def dateToUse (data_type : String) (target_date : PyDate) : PyDate :=
  if data_type = "daily" then
    { year := target_date.year, month := target_date.month, day := 1 }
  else target_date

/-- Directory segments of the cache path for an (already normalized)
effective date `d`. -/
def cachePathList (self : AmedasNode) (data_type : String) (d : PyDate) : List String :=
  ["raw_html", data_type, self.block_no ++ "_" ++ self.name, toString d.year]

/-- Cache file name for an (already normalized) effective date `d`
(`f"{block_no}_{name}_{d:%Y_%m_%d}.html"`). -/
def cacheFileName (self : AmedasNode) (d : PyDate) : String :=
  self.block_no ++ "_" ++ self.name ++ "_" ++
    pad4 d.year ++ "_" ++ pad2 d.month ++ "_" ++ pad2 d.day ++ ".html"

/-- Full cache path (the cache key) for a request, date normalization
included. -/
def cacheFilePath (self : AmedasNode) (data_type : String) (target_date : PyDate) :
    FsPath :=
  cachePathList self data_type (dateToUse data_type target_date) ++
    [cacheFileName self (dateToUse data_type target_date)]

/-- Rendering of a path in log messages (`Path` segments joined by `/`). -/
def pathToString : FsPath → String
  | [] => ""
  | [x] => x
  | x :: rest => x ++ "/" ++ pathToString rest

/-- Result of `AmedasNode.save`: the bool return value, the filesystem after
the call, and the effects performed. -/
structure SaveResult where
  ret : Bool
  world : World
  netCalls : List String
  logs : List String
deriving DecidableEq, Repr

/-- Model of `AmedasNode.save`: normalize the date, create the cache
directories, then either hit the cache (return `False`) or call `get_data`
and — iff a non-`None`, non-empty body came back (Python truthiness of
`html`) — write the file, returning `True` in every non-cache-hit case. -/
def AmedasNode.save (self : AmedasNode) (net : Net) (w : World) (data_type : String)
    (target_date : PyDate) (force : Bool) : SaveResult :=
  let date_to_use := dateToUse data_type target_date
  let path_list := cachePathList self data_type date_to_use
  let w1 := create_dir w path_list
  let file_path := path_list ++ [cacheFileName self date_to_use]
  if !(fileExists w1.files file_path) || force then
    let r := self.get_data net data_type date_to_use
    match r.html with
    | some html =>
        if html ≠ "" then
          { ret := true,
            world := { w1 with files := setFile w1.files file_path html },
            netCalls := r.netCalls,
            logs := r.logs ++ ["info: Data saved to " ++ pathToString file_path] }
        else
          { ret := true, world := w1, netCalls := r.netCalls, logs := r.logs }
    | none => { ret := true, world := w1, netCalls := r.netCalls, logs := r.logs }
  else
    { ret := false, world := w1, netCalls := [],
      logs := ["info: " ++ pathToString file_path ++ " already exists."] }

/-- The `None if x == "None" else x` translation applied to each field. -/
def noneMap (s : String) : Option String :=
  if s = "None" then none else some s

/-- Field extraction for one reference-table line:
`line.strip().split("\t")` followed by the `"None"` translation. -/
def parseLine (line : String) : List (Option String) :=
  ((splitSep '\t' (stripChars line.data)).map (fun l => String.mk l)).map noneMap

/-- The registry: insertion-ordered mapping from block-code field to node
(Python `dict`), with last-wins overwrite on duplicate keys. -/
abbrev Registry := List (Option String × AmedasNode)

/-- Python `dict` assignment `m[k] = v`: replaces any pair with key `k`. -/
def dictInsert (m : Registry) (k : Option String) (v : AmedasNode) : Registry :=
  m.filter (fun p => p.1 != k) ++ [(k, v)]

/-- The keys present in a registry. -/
def dictKeys (m : Registry) : List (Option String) :=
  m.map (fun p => p.1)

/-- Node construction from the (possibly `None`-translated) fields of a row.
`float(height)` raises on `None` or a non-float string and `int(block_no)`
raises on `None` or a non-integer string, aborting the whole load, hence
`Except`.  Fields that Python would store as the object `None` are stored
here in their f-string rendering `"None"` (the only way the program ever
reads them back). -/
def mkNodeFromFields (prec block name _id area group height : Option String) :
    Except Unit AmedasNode :=
  match block, height with
  | some b, some h =>
      match AmedasNode.make (renderOptStr prec) b (renderOptStr name) (renderOptStr _id)
          (renderOptStr area) (renderOptStr group) h with
      | some nd => Except.ok nd
      | none => Except.error ()
  | _, _ => Except.error ()

/-- The node a row constructs: destructure `prec_no, block_no, name, *_,
height, _id, area_code, group_code` (first three fields, last four fields)
and run the constructor. -/
def rowNode (line : String) : Except Unit AmedasNode :=
  let fields := parseLine line
  let n := fields.length
  mkNodeFromFields (fields.getD 0 none) (fields.getD 1 none) (fields.getD 2 none)
    (fields.getD (n - 3) none) (fields.getD (n - 2) none)
    (fields.getD (n - 1) none) (fields.getD (n - 4) none)

/-- The dict key a row is stored under: its `block_no` field. -/
def rowKey (line : String) : Option String :=
  (parseLine line).getD 1 none

/-- Did the row's constructor succeed? -/
def rowOk (line : String) : Bool :=
  match rowNode line with
  | Except.ok _ => true
  | Except.error _ => false

/-- The loop body of `get_amedas_nodes`: skip rows with fewer than 10 fields,
otherwise construct the node and insert it under the block-code field; a
constructor exception aborts the whole load. -/
def loadLines : List String → Registry → Except Unit Registry
  | [], acc => Except.ok acc
  | line :: rest, acc =>
      if (parseLine line).length < 10 then loadLines rest acc
      else
        match rowNode line with
        | Except.ok node => loadLines rest (dictInsert acc (rowKey line) node)
        | Except.error e => Except.error e

/-- Model of `get_amedas_nodes`, over the list of lines of the reference
table file. -/
def get_amedas_nodes (lines : List String) : Except Unit Registry :=
  loadLines lines []

deriving instance DecidableEq for Except

/-- A concrete station: block code 47401 (≥ 10000, so category token "s"). -/
def node47401 : AmedasNode :=
  { prec_no := "44", block_no := "47401", name := "st", id := "i", area_code := "ac",
    group_code := "gc", height := "10", url_part := "s" }

/-- A concrete station at the boundary block code 10000. -/
def node10000 : AmedasNode :=
  { prec_no := "31", block_no := "10000", name := "x", id := "y",
    area_code := "z", group_code := "g", height := "5", url_part := "s" }

/-- A network on which every `requests.get` raises. -/
def netFail : Net := fun _ => NetResult.failure

/-- A network on which every `requests.get` returns a fixed non-empty body. -/
def netOk : Net := fun _ => NetResult.success "<html>data</html>"

/-- The URL `_construct_url` builds for `node47401`, hourly, 2016-04-12. -/
def urlHourly47401 : String :=
  "http://www.data.jma.go.jp/obd/stats/etrn/view/hourly_s1.php?prec_no=44&block_no=47401&year=2016&month=04&day=12&view="

/-- A filesystem already holding the hourly 2016-04-12 cache file for
`node47401`, with content "OLD". -/
def wCached : World :=
  ⟨[], [(cacheFilePath node47401 "hourly" ⟨2016, 4, 12⟩, "OLD")]⟩

/-- A well-formed reference-table row (10 fields, float height, int block). -/
def rowA : String := "11\t0001\tAA\tp\tq\tr\t1.5\tida\taca\tgca"

/-- A malformed reference-table row with only 5 fields. -/
def rowShort : String := "99\t9999\tZZ\tp\tq"

/-- Another well-formed reference-table row. -/
def rowB : String := "12\t47401\tBB\tp\tq\tr\t10\tidb\tacb\tgcb"

/-- A row with 10 fields whose height field `"xx"` is not a float literal:
`float("xx")` raises during `AmedasNode.__init__`. -/
def rowBadHeight : String := "13\t1003\tCC\tp\tq\tr\txx\tidc\tacc\tgcc"

/-! ## Helper lemmas -/

/-- Writing a file makes it exist. -/
theorem fileExists_setFile (files : List (FsPath × String)) (p : FsPath) (c : String) :
    fileExists (setFile files p c) p = true := by
  simp [fileExists, setFile, List.any_append]

/-- Reading back a just-written file yields its content. -/
theorem getFile_setFile (files : List (FsPath × String)) (p : FsPath) (c : String) :
    getFile (setFile files p c) p = some c := by
  simp [getFile, setFile, List.filter_append, List.filter_filter]

/-- Behaviour of `get_data` when a URL was constructed: one fetch of that
URL, with the result of the download determined by the network. -/
theorem get_data_known (self : AmedasNode) (net : Net) (res : String) (d : PyDate)
    (u : String) (hurl : self.construct_url res d = some u) :
    self.get_data net res d =
      match net u with
      | NetResult.success body =>
          { html := some body, netCalls := [u], logs := ["info: --target url-- " ++ u] }
      | NetResult.failure =>
          { html := none, netCalls := [u],
            logs := ["info: --target url-- " ++ u, "error: --download error--"] } := by
  unfold AmedasNode.get_data AmedasNode.download_html
  rw [hurl]
  cases hn : net u <;> simp [renderOptStr, hn]

/-- Behaviour of `get_data` when URL construction failed: no fetch, no data,
a warning and a caught download error. -/
theorem get_data_nourl (self : AmedasNode) (net : Net) (res : String) (d : PyDate)
    (hurl : self.construct_url res d = none) :
    self.get_data net res d =
      { html := none, netCalls := [],
        logs := ["warning: Unknown data type: " ++ res, "info: --target url-- None",
                 "error: --download error--"] } := by
  unfold AmedasNode.get_data AmedasNode.download_html
  rw [hurl]
  simp [renderOptStr]

/-- URL construction fails exactly on resolutions outside the closed set. -/
theorem construct_url_unknown (self : AmedasNode) (res : String) (d : PyDate)
    (h1 : res ≠ "10min") (h2 : res ≠ "hourly") (h3 : res ≠ "daily") (h4 : res ≠ "real-time") :
    self.construct_url res d = none := by
  simp [AmedasNode.construct_url, h1, h2, h3, h4]

/-- The bool `save` returns is exactly "the file was missing, or force". -/
theorem save_ret (self : AmedasNode) (net : Net) (w : World) (res : String)
    (d : PyDate) (force : Bool) :
    (self.save net w res d force).ret =
      (!(fileExists w.files (cacheFilePath self res d)) || force) := by
  simp only [AmedasNode.save]
  split
  · next h =>
    split
    · split
      · exact h.symm
      · exact h.symm
    · exact h.symm
  · next h =>
    simp only [Bool.not_eq_true] at h
    exact h.symm

/-- Every call to `save` — cache hit or not, data or not — leaves the cache
directories created, because `create_dir` runs before the existence check. -/
theorem save_world_dirs (self : AmedasNode) (net : Net) (w : World) (res : String)
    (d : PyDate) (force : Bool) :
    (self.save net w res d force).world.dirs =
      w.dirs ++ prefixesOf (cachePathList self res (dateToUse res d)) := by
  simp only [AmedasNode.save]
  split
  · split
    · split
      · rfl
      · rfl
    · rfl
  · rfl

/-- Full behaviour of `save` on a cache hit (file present, `force=False`):
no fetch, no write, return `False`. -/
theorem save_cache_hit_eq (self : AmedasNode) (net : Net) (w : World) (res : String)
    (d : PyDate) (hfe : fileExists w.files (cacheFilePath self res d) = true) :
    self.save net w res d false =
      { ret := false, world := create_dir w (cachePathList self res (dateToUse res d)),
        netCalls := [],
        logs := ["info: " ++ pathToString (cacheFilePath self res d) ++ " already exists."] } := by
  have hfe' : fileExists (create_dir w (cachePathList self res (dateToUse res d))).files
      (cachePathList self res (dateToUse res d) ++ [cacheFileName self (dateToUse res d)]) =
      true := hfe
  simp only [AmedasNode.save]
  rw [hfe']
  simp
  rfl

/-- Full behaviour of `save` on the fetch path when the network returns a
non-empty body: one fetch, file written with that body, return `True`. -/
theorem save_fetch_success (self : AmedasNode) (net : Net) (w : World) (res : String)
    (d : PyDate) (force : Bool) (u body : String)
    (hcond : (!(fileExists w.files (cacheFilePath self res d)) || force) = true)
    (hurl : self.construct_url res (dateToUse res d) = some u)
    (hnet : net u = NetResult.success body) (hbody : body ≠ "") :
    self.save net w res d force =
      { ret := true,
        world := { dirs := w.dirs ++ prefixesOf (cachePathList self res (dateToUse res d)),
                   files := setFile w.files (cacheFilePath self res d) body },
        netCalls := [u],
        logs := ["info: --target url-- " ++ u,
                 "info: Data saved to " ++ pathToString (cacheFilePath self res d)] } := by
  have hcond' : (!(fileExists (create_dir w (cachePathList self res (dateToUse res d))).files
      (cachePathList self res (dateToUse res d) ++ [cacheFileName self (dateToUse res d)])) ||
      force) = true := hcond
  have hgd : self.get_data net res (dateToUse res d) =
      { html := some body, netCalls := [u], logs := ["info: --target url-- " ++ u] } := by
    rw [get_data_known self net res (dateToUse res d) u hurl, hnet]
  simp only [AmedasNode.save]
  rw [hcond', hgd]
  simp [hbody]
  exact ⟨⟨rfl, rfl⟩, rfl⟩

/-- Full behaviour of `save` on the fetch path when `get_data` comes back
with `None`: no write (Python truthiness), still return `True`. -/
theorem save_fetch_nodata (self : AmedasNode) (net : Net) (w : World) (res : String)
    (d : PyDate) (force : Bool)
    (hcond : (!(fileExists w.files (cacheFilePath self res d)) || force) = true)
    (hhtml : (self.get_data net res (dateToUse res d)).html = none) :
    self.save net w res d force =
      { ret := true, world := create_dir w (cachePathList self res (dateToUse res d)),
        netCalls := (self.get_data net res (dateToUse res d)).netCalls,
        logs := (self.get_data net res (dateToUse res d)).logs } := by
  have hcond' : (!(fileExists (create_dir w (cachePathList self res (dateToUse res d))).files
      (cachePathList self res (dateToUse res d) ++ [cacheFileName self (dateToUse res d)])) ||
      force) = true := hcond
  simp only [AmedasNode.save]
  rw [hcond', hhtml]
  simp

/-- Rows with fewer than 10 fields are invisible to the registry loader. -/
theorem loadLines_skip (line : String) (hshort : (parseLine line).length < 10) :
    ∀ (ls₁ ls₂ : List String) (acc : Registry),
      loadLines (ls₁ ++ line :: ls₂) acc = loadLines (ls₁ ++ ls₂) acc := by
  intro ls₁
  induction ls₁ with
  | nil =>
      intro ls₂ acc
      simp only [List.nil_append, loadLines, if_pos hshort]
  | cons l ls ih =>
      intro ls₂ acc
      simp only [List.cons_append, loadLines]
      split
      · exact ih ls₂ acc
      · split
        · exact ih ls₂ _
        · rfl

/-- Dict insertion preserves the presence of every key. -/
theorem dictKeys_insert_mem (m : Registry) (k k' : Option String) (v : AmedasNode)
    (h : k ∈ dictKeys m) : k ∈ dictKeys (dictInsert m k' v) := by
  by_cases hk : k = k'
  · subst hk
    simp [dictKeys, dictInsert]
  · simp only [dictKeys, dictInsert, List.map_append, List.mem_append]
    left
    simp only [dictKeys, List.mem_map] at h
    obtain ⟨p, hp, hkey⟩ := h
    refine List.mem_map.mpr ⟨p, List.mem_filter.mpr ⟨hp, ?_⟩, hkey⟩
    rw [hkey]
    exact bne_iff_ne.mpr hk

/-- Dict insertion puts the inserted key in the keys. -/
theorem dictKeys_insert_self (m : Registry) (k : Option String) (v : AmedasNode) :
    k ∈ dictKeys (dictInsert m k v) := by
  simp [dictKeys, dictInsert]

/-- If every row is short (skipped) or constructs successfully, the load
succeeds, keeps already-inserted keys, and records every long row's key. -/
theorem loadLines_ok :
    ∀ (ls : List String) (acc : Registry),
      (∀ l ∈ ls, (parseLine l).length < 10 ∨ rowOk l = true) →
      ∃ m, loadLines ls acc = Except.ok m ∧
        (∀ k, k ∈ dictKeys acc → k ∈ dictKeys m) ∧
        (∀ l ∈ ls, ¬((parseLine l).length < 10) → rowKey l ∈ dictKeys m) := by
  intro ls
  induction ls with
  | nil =>
      intro acc _
      exact ⟨acc, rfl, fun k hk => hk, by simp⟩
  | cons l ls ih =>
      intro acc h
      by_cases hshort : (parseLine l).length < 10
      · obtain ⟨m, hm, hsub, hmem⟩ := ih acc (fun x hx => h x (List.mem_cons_of_mem _ hx))
        refine ⟨m, ?_, hsub, ?_⟩
        · simp only [loadLines, if_pos hshort]
          exact hm
        · intro x hx hxlong
          rcases List.mem_cons.mp hx with rfl | hx'
          · exact absurd hshort hxlong
          · exact hmem x hx' hxlong
      · have hok : rowOk l = true :=
          (h l (List.mem_cons_self _ _)).resolve_left hshort
        obtain ⟨nd, hnd⟩ : ∃ nd, rowNode l = Except.ok nd := by
          unfold rowOk at hok
          cases hrn : rowNode l with
          | ok nd => exact ⟨nd, rfl⟩
          | error e => rw [hrn] at hok; cases hok
        obtain ⟨m, hm, hsub, hmem⟩ :=
          ih (dictInsert acc (rowKey l) nd) (fun x hx => h x (List.mem_cons_of_mem _ hx))
        refine ⟨m, ?_, ?_, ?_⟩
        · simp only [loadLines, if_neg hshort, hnd]
          exact hm
        · intro k hk
          exact hsub k (dictKeys_insert_mem acc k (rowKey l) nd hk)
        · intro x hx hxlong
          rcases List.mem_cons.mp hx with rfl | hx'
          · exact hsub _ (dictKeys_insert_self acc (rowKey x) nd)
          · exact hmem x hx' hxlong

/-! ## Claim theorems -/

/-- C1 (amended): `save` returns `False` exactly when the cache already
satisfied the request (the file existed at the normalized cache path and
`force` was false), and returns `True` exactly when the file was missing or
`force` was set.  (The `True` case only means a fetch was attempted; the
original claim's "true iff a new download occurred" fails, see the
counterexample.) -/
theorem c1_save_return (self : AmedasNode) (net : Net) (w : World) (res : String)
    (d : PyDate) (force : Bool) :
    ((self.save net w res d force).ret = false ↔
      (fileExists w.files (cacheFilePath self res d) = true ∧ force = false)) ∧
    ((self.save net w res d force).ret = true ↔
      (fileExists w.files (cacheFilePath self res d) = false ∨ force = true)) := by
  rw [save_ret]
  cases hfe : fileExists w.files (cacheFilePath self res d) <;> cases force <;> simp

/-- C1 counterexample to the claim as stated: with an unknown resolution
`"weekly"` and an empty cache, `save` returns `True` although no network
call is made and no file is written — no download occurred in any sense. -/
theorem c1_counterexample :
    (node47401.save netFail ⟨[], []⟩ "weekly" ⟨2016, 4, 12⟩ false).ret = true ∧
    (node47401.save netFail ⟨[], []⟩ "weekly" ⟨2016, 4, 12⟩ false).netCalls = [] ∧
    (node47401.save netFail ⟨[], []⟩ "weekly" ⟨2016, 4, 12⟩ false).world.files = [] := by
  decide

/-- C2 (amended): starting from a cache without the file, with a known
resolution whose URL the network answers with a non-empty body, the first
`save` with `force=False` fetches exactly once and writes the file; the
second identical call finds the file present, performs no network access,
reports a no-op (`False`) and leaves the files unchanged. -/
theorem c2_cache_idempotence (self : AmedasNode) (net : Net) (w : World) (res : String)
    (d : PyDate) (u body : String)
    (hurl : self.construct_url res (dateToUse res d) = some u)
    (hnet : net u = NetResult.success body) (hbody : body ≠ "")
    (hcold : fileExists w.files (cacheFilePath self res d) = false) :
    (self.save net w res d false).ret = true ∧
    (self.save net w res d false).netCalls = [u] ∧
    fileExists (self.save net w res d false).world.files (cacheFilePath self res d) = true ∧
    (self.save net (self.save net w res d false).world res d false).ret = false ∧
    (self.save net (self.save net w res d false).world res d false).netCalls = [] ∧
    (self.save net (self.save net w res d false).world res d false).world.files =
      (self.save net w res d false).world.files := by
  have hcond : (!(fileExists w.files (cacheFilePath self res d)) || false) = true := by
    rw [hcold]; rfl
  have h1 := save_fetch_success self net w res d false u body hcond hurl hnet hbody
  rw [h1]
  dsimp only
  have hfe2 : fileExists
      (setFile w.files (cacheFilePath self res d) body) (cacheFilePath self res d) = true :=
    fileExists_setFile w.files (cacheFilePath self res d) body
  have h2 := save_cache_hit_eq self net
      ⟨w.dirs ++ prefixesOf (cachePathList self res (dateToUse res d)),
       setFile w.files (cacheFilePath self res d) body⟩ res d hfe2
  rw [h2]
  exact ⟨rfl, rfl, hfe2, rfl, rfl, rfl⟩

/-- C2 counterexample to the claim as stated: if the first fetch fails, no
file is written, so the second identical call does NOT find the file and
fetches again — two network calls in total, not exactly one. -/
theorem c2_counterexample :
    ((node47401.save netFail ⟨[], []⟩ "hourly" ⟨2016, 4, 12⟩ false).netCalls.length = 1) ∧
    ((node47401.save netFail
        (node47401.save netFail ⟨[], []⟩ "hourly" ⟨2016, 4, 12⟩ false).world
        "hourly" ⟨2016, 4, 12⟩ false).netCalls.length = 1) ∧
    (fileExists (node47401.save netFail ⟨[], []⟩ "hourly" ⟨2016, 4, 12⟩ false).world.files
      (cacheFilePath node47401 "hourly" ⟨2016, 4, 12⟩) = false) := by
  decide

/-- C2 witness: the amended idempotence at a concrete station, resolution,
date and a succeeding network. -/
theorem c2_cache_idempotence_witness :
    (node47401.save netOk ⟨[], []⟩ "hourly" ⟨2016, 4, 12⟩ false).ret = true ∧
    (node47401.save netOk ⟨[], []⟩ "hourly" ⟨2016, 4, 12⟩ false).netCalls = [urlHourly47401] ∧
    fileExists (node47401.save netOk ⟨[], []⟩ "hourly" ⟨2016, 4, 12⟩ false).world.files
      (cacheFilePath node47401 "hourly" ⟨2016, 4, 12⟩) = true ∧
    (node47401.save netOk
      (node47401.save netOk ⟨[], []⟩ "hourly" ⟨2016, 4, 12⟩ false).world
      "hourly" ⟨2016, 4, 12⟩ false).ret = false ∧
    (node47401.save netOk
      (node47401.save netOk ⟨[], []⟩ "hourly" ⟨2016, 4, 12⟩ false).world
      "hourly" ⟨2016, 4, 12⟩ false).netCalls = [] ∧
    (node47401.save netOk
      (node47401.save netOk ⟨[], []⟩ "hourly" ⟨2016, 4, 12⟩ false).world
      "hourly" ⟨2016, 4, 12⟩ false).world.files =
      (node47401.save netOk ⟨[], []⟩ "hourly" ⟨2016, 4, 12⟩ false).world.files :=
  c2_cache_idempotence node47401 netOk ⟨[], []⟩ "hourly" ⟨2016, 4, 12⟩
    urlHourly47401 "<html>data</html>" (by rfl) (by rfl) (by decide) (by rfl)

/-- C3 (amended): `save` with `force=True` on an already-cached tuple with a
known resolution performs a network call, and when the fetch yields a
non-empty body it overwrites the cached file with that body regardless of
the file's prior content.  (When the fetch fails, the call is still made but
the prior file survives — see the counterexample.) -/
theorem c3_force_override (self : AmedasNode) (net : Net) (w : World) (res : String)
    (d : PyDate) (u body : String)
    (hcached : fileExists w.files (cacheFilePath self res d) = true)
    (hurl : self.construct_url res (dateToUse res d) = some u)
    (hnet : net u = NetResult.success body) (hbody : body ≠ "") :
    (self.save net w res d true).ret = true ∧
    (self.save net w res d true).netCalls = [u] ∧
    getFile (self.save net w res d true).world.files (cacheFilePath self res d) = some body := by
  have hcond : (!(fileExists w.files (cacheFilePath self res d)) || true) = true := by simp
  rw [save_fetch_success self net w res d true u body hcond hurl hnet hbody]
  exact ⟨rfl, rfl, getFile_setFile w.files (cacheFilePath self res d) body⟩

/-- C3 counterexample to the claim as stated: forcing a refetch of a cached
tuple over a failing network performs the network call but does NOT
overwrite the file — the old content survives. -/
theorem c3_counterexample :
    ((node47401.save netFail wCached "hourly" ⟨2016, 4, 12⟩ true).netCalls.length = 1) ∧
    (getFile (node47401.save netFail wCached "hourly" ⟨2016, 4, 12⟩ true).world.files
      (cacheFilePath node47401 "hourly" ⟨2016, 4, 12⟩) = some "OLD") := by
  decide

/-- C3 witness: the amended force override at a concrete cached station and
a succeeding network. -/
theorem c3_force_override_witness :
    (node47401.save netOk wCached "hourly" ⟨2016, 4, 12⟩ true).ret = true ∧
    (node47401.save netOk wCached "hourly" ⟨2016, 4, 12⟩ true).netCalls = [urlHourly47401] ∧
    getFile (node47401.save netOk wCached "hourly" ⟨2016, 4, 12⟩ true).world.files
      (cacheFilePath node47401 "hourly" ⟨2016, 4, 12⟩) = some "<html>data</html>" :=
  c3_force_override node47401 netOk wCached "hourly" ⟨2016, 4, 12⟩
    urlHourly47401 "<html>data</html>" (by decide) (by rfl) (by rfl) (by decide)

/-- C4: for every date, daily resolution truncates the effective date to the
first of its month (used both for the cache path and for the URL, since
`save` passes the normalized date to `get_data`); any non-daily resolution
uses the date as given; and every day of 2016-05 yields the same cache path
as 2016-05-01 and a URL carrying `month=05&day=01`. -/
theorem c4_daily_normalization (self : AmedasNode) (d : PyDate) (res : String) (day : Nat)
    (h1 : 1 ≤ day) (h2 : day ≤ 31) (hres : res ≠ "daily") :
    dateToUse "daily" d = ⟨d.year, d.month, 1⟩ ∧
    dateToUse res d = d ∧
    cacheFilePath self "daily" ⟨2016, 5, day⟩ = cacheFilePath self "daily" ⟨2016, 5, 1⟩ ∧
    self.construct_url "daily" (dateToUse "daily" ⟨2016, 5, day⟩) =
      some ("http://www.data.jma.go.jp/obd/stats/etrn/view/daily_" ++ self.url_part ++
        ("1.php?prec_no=" ++ self.prec_no) ++ ("&block_no=" ++ self.block_no) ++
        "&year=2016&month=05&day=01&view=") := by
  refine ⟨rfl, ?_, rfl, ?_⟩
  · simp [dateToUse, hres]
  · simp [dateToUse, AmedasNode.construct_url, pad2, String.append_assoc]
    rfl

/-- C4 witness: the normalization at day 17 of 2016-05 and the non-daily
case at hourly resolution. -/
theorem c4_daily_normalization_witness :
    dateToUse "daily" ⟨2016, 4, 12⟩ = (⟨2016, 4, 1⟩ : PyDate) ∧
    dateToUse "hourly" ⟨2016, 4, 12⟩ = (⟨2016, 4, 12⟩ : PyDate) ∧
    cacheFilePath node47401 "daily" ⟨2016, 5, 17⟩ = cacheFilePath node47401 "daily" ⟨2016, 5, 1⟩ ∧
    node47401.construct_url "daily" (dateToUse "daily" ⟨2016, 5, 17⟩) =
      some ("http://www.data.jma.go.jp/obd/stats/etrn/view/daily_" ++ node47401.url_part ++
        ("1.php?prec_no=" ++ node47401.prec_no) ++ ("&block_no=" ++ node47401.block_no) ++
        "&year=2016&month=05&day=01&view=") :=
  c4_daily_normalization node47401 ⟨2016, 4, 12⟩ "hourly" 17 (by decide) (by decide) (by decide)

/-- C5: for every successfully constructed station, the derived `url_part`
is the category-A token `"a"` exactly when the numeric block code is
strictly below 10000, and the category-B token `"s"` exactly when it is
10000 or more (so the boundary value 10000 is category B). -/
theorem c5_url_category (prec block name _id area group height : String)
    (node : AmedasNode) (n : Int)
    (hmk : AmedasNode.make prec block name _id area group height = some node)
    (hparse : parsePyInt block = some n) :
    (node.url_part = "a" ↔ n < 10000) ∧ (node.url_part = "s" ↔ 10000 ≤ n) := by
  unfold AmedasNode.make at hmk
  rw [hparse] at hmk
  by_cases hf : isPyFloat height = true
  · simp only [hf, if_true, Option.some.injEq] at hmk
    subst hmk
    by_cases hn : n < 10000
    · rw [if_pos hn]
      exact ⟨⟨fun _ => hn, fun _ => rfl⟩,
             ⟨fun h => absurd h (show ¬ (("a" : String) = "s") by decide),
              fun h => absurd hn (by omega)⟩⟩
    · rw [if_neg hn]
      exact ⟨⟨fun h => absurd h (show ¬ (("s" : String) = "a") by decide),
              fun h => absurd h hn⟩,
             ⟨fun _ => by omega, fun _ => rfl⟩⟩
  · simp [hf] at hmk

/-- C5 witness: the boundary block code 10000 constructs with category token
`"s"`. -/
theorem c5_url_category_witness :
    (node10000.url_part = "a" ↔ (10000 : Int) < 10000) ∧
    (node10000.url_part = "s" ↔ (10000 : Int) ≤ 10000) :=
  c5_url_category "31" "10000" "x" "y" "z" "g" "5" node10000 10000 (by rfl) (by decide)

/-- C6: a station constructed with block code "47401" (≥ 10000, hence
category-B token "s") yields, for hourly resolution and 2016-04-12, exactly
the URL `.../etrn/view/hourly_s1.php?prec_no={prec}&block_no=47401&year=2016&month=04&day=12&view=`
with month and day zero-padded to two digits. -/
theorem c6_hourly_url (prec name _id area group : String) (node : AmedasNode)
    (hmk : AmedasNode.make prec "47401" name _id area group "10" = some node) :
    node.construct_url "hourly" ⟨2016, 4, 12⟩ =
      some (("http://www.data.jma.go.jp/obd/stats/etrn/view/hourly_s1.php?prec_no=" ++ prec) ++
        "&block_no=47401&year=2016&month=04&day=12&view=") := by
  have hmk2 : AmedasNode.make prec "47401" name _id area group "10" =
      some { prec_no := prec, block_no := "47401", name := name, id := _id,
             area_code := area, group_code := group, height := "10", url_part := "s" } := rfl
  rw [hmk2] at hmk
  simp only [Option.some.injEq] at hmk
  subst hmk
  simp [AmedasNode.construct_url, pad2, String.append_assoc]
  rfl

/-- C6 witness: the URL at the concrete station `node47401`. -/
theorem c6_hourly_url_witness :
    node47401.construct_url "hourly" ⟨2016, 4, 12⟩ =
      some (("http://www.data.jma.go.jp/obd/stats/etrn/view/hourly_s1.php?prec_no=" ++ "44") ++
        "&block_no=47401&year=2016&month=04&day=12&view=") :=
  c6_hourly_url "44" "st" "i" "ac" "gc" node47401 (by rfl)

/-- C7: for every resolution outside {10min, hourly, daily, real-time}, URL
construction returns `None` and a warning is logged; the fetch obtains no
data with no network access (`requests.get(None)` raises before any network
I/O and the exception is caught and logged, never propagated); and the
`save` call writes no file and touches no network. -/
theorem c7_unknown_resolution (res : String) (self : AmedasNode) (net : Net) (w : World)
    (d : PyDate) (force : Bool)
    (h1 : res ≠ "10min") (h2 : res ≠ "hourly") (h3 : res ≠ "daily") (h4 : res ≠ "real-time") :
    self.construct_url res d = none ∧
    (self.get_data net res d).html = none ∧
    (self.get_data net res d).netCalls = [] ∧
    (("warning: Unknown data type: " ++ res) ∈ (self.get_data net res d).logs) ∧
    AmedasNode.download_html net none =
      { html := none, netCalls := [], logs := ["error: --download error--"] } ∧
    (self.save net w res d force).netCalls = [] ∧
    (self.save net w res d force).world.files = w.files := by
  have hu : self.construct_url res d = none := construct_url_unknown self res d h1 h2 h3 h4
  have hu' : self.construct_url res (dateToUse res d) = none :=
    construct_url_unknown self res (dateToUse res d) h1 h2 h3 h4
  have hgd := get_data_nourl self net res d hu
  have hh : (self.get_data net res (dateToUse res d)).html = none := by
    rw [get_data_nourl self net res (dateToUse res d) hu']
  have hsave : (self.save net w res d force).netCalls = [] ∧
      (self.save net w res d force).world.files = w.files := by
    cases force with
    | false =>
        cases hfe : fileExists w.files (cacheFilePath self res d) with
        | false =>
            have hc : (!(fileExists w.files (cacheFilePath self res d)) || false) = true := by
              rw [hfe]; rfl
            rw [save_fetch_nodata self net w res d false hc hh,
                get_data_nourl self net res (dateToUse res d) hu']
            exact ⟨rfl, rfl⟩
        | true =>
            rw [save_cache_hit_eq self net w res d hfe]
            exact ⟨rfl, rfl⟩
    | true =>
        have hc : (!(fileExists w.files (cacheFilePath self res d)) || true) = true := by
          simp
        rw [save_fetch_nodata self net w res d true hc hh,
            get_data_nourl self net res (dateToUse res d) hu']
        exact ⟨rfl, rfl⟩
  exact ⟨hu, by rw [hgd], by rw [hgd], by rw [hgd]; simp, rfl, hsave.1, hsave.2⟩

/-- C7 witness: the unknown resolution "weekly" at a concrete station. -/
theorem c7_unknown_resolution_witness :
    node47401.construct_url "weekly" ⟨2016, 4, 12⟩ = none ∧
    (node47401.get_data netFail "weekly" ⟨2016, 4, 12⟩).html = none ∧
    (node47401.get_data netFail "weekly" ⟨2016, 4, 12⟩).netCalls = [] ∧
    (("warning: Unknown data type: " ++ "weekly") ∈
      (node47401.get_data netFail "weekly" ⟨2016, 4, 12⟩).logs) ∧
    AmedasNode.download_html netFail none =
      { html := none, netCalls := [], logs := ["error: --download error--"] } ∧
    (node47401.save netFail ⟨[], []⟩ "weekly" ⟨2016, 4, 12⟩ false).netCalls = [] ∧
    (node47401.save netFail ⟨[], []⟩ "weekly" ⟨2016, 4, 12⟩ false).world.files = [] :=
  c7_unknown_resolution "weekly" node47401 netFail ⟨[], []⟩ ⟨2016, 4, 12⟩ false
    (by decide) (by decide) (by decide) (by decide)

/-- C8: when `requests.get` (or decoding) raises for the constructed URL,
`_download_html` catches it, logs an error and returns `None`; consequently
the fetch obtains no data and `save` writes no cache file, for every cache
state and force flag — no exception reaches the caller. -/
theorem c8_failure_no_write (self : AmedasNode) (net : Net) (w : World) (res : String)
    (d : PyDate) (force : Bool) (u : String)
    (hurl : self.construct_url res (dateToUse res d) = some u)
    (hnet : net u = NetResult.failure) :
    AmedasNode.download_html net (some u) =
      { html := none, netCalls := [u], logs := ["error: --download error--"] } ∧
    (self.get_data net res (dateToUse res d)).html = none ∧
    (self.save net w res d force).world.files = w.files := by
  have hgd : self.get_data net res (dateToUse res d) =
      { html := none, netCalls := [u],
        logs := ["info: --target url-- " ++ u, "error: --download error--"] } := by
    rw [get_data_known self net res (dateToUse res d) u hurl, hnet]
  have hh : (self.get_data net res (dateToUse res d)).html = none := by rw [hgd]
  have hd : AmedasNode.download_html net (some u) =
      (match net u with
       | NetResult.success body => { html := some body, netCalls := [u], logs := [] }
       | NetResult.failure =>
          { html := none, netCalls := [u], logs := ["error: --download error--"] }) := rfl
  refine ⟨by rw [hd, hnet], hh, ?_⟩
  cases force with
  | false =>
      cases hfe : fileExists w.files (cacheFilePath self res d) with
      | false =>
          have hc : (!(fileExists w.files (cacheFilePath self res d)) || false) = true := by
            rw [hfe]; rfl
          rw [save_fetch_nodata self net w res d false hc hh]
          exact rfl
      | true =>
          rw [save_cache_hit_eq self net w res d hfe]
          exact rfl
  | true =>
      have hc : (!(fileExists w.files (cacheFilePath self res d)) || true) = true := by simp
      rw [save_fetch_nodata self net w res d true hc hh]
      exact rfl

/-- C8 witness: a failing network at the concrete hourly request. -/
theorem c8_failure_no_write_witness :
    AmedasNode.download_html netFail (some urlHourly47401) =
      { html := none, netCalls := [urlHourly47401], logs := ["error: --download error--"] } ∧
    (node47401.get_data netFail "hourly" (dateToUse "hourly" ⟨2016, 4, 12⟩)).html = none ∧
    (node47401.save netFail ⟨[], []⟩ "hourly" ⟨2016, 4, 12⟩ false).world.files = [] :=
  c8_failure_no_write node47401 netFail ⟨[], []⟩ "hourly" ⟨2016, 4, 12⟩ false
    urlHourly47401 (by rfl) (by rfl)

/-- C9 (amended): a reference-table line with fewer than 10 tab-separated
fields is skipped silently — removing it changes nothing in the load result,
so it contributes no entry — and, provided every line with at least 10
fields also parses (float height field, integer block-code field), the load
succeeds and every such line's block-code key appears in the resulting
mapping.  (A ≥10-field line whose height or block code does not parse aborts
the whole load — see the counterexample.) -/
theorem c9_registry (ls ls₁ ls₂ : List String) (line : String)
    (hshort : (parseLine line).length < 10)
    (hall : ∀ l ∈ ls, (parseLine l).length < 10 ∨ rowOk l = true) :
    get_amedas_nodes (ls₁ ++ line :: ls₂) = get_amedas_nodes (ls₁ ++ ls₂) ∧
    ∃ m, get_amedas_nodes ls = Except.ok m ∧
      ∀ l ∈ ls, ¬((parseLine l).length < 10) → rowKey l ∈ dictKeys m := by
  constructor
  · exact loadLines_skip line hshort ls₁ ls₂ []
  · obtain ⟨m, hm, _, hmem⟩ := loadLines_ok ls [] hall
    exact ⟨m, hm, hmem⟩

/-- C9 counterexample to the claim as stated: a 10-field line whose height
field is not numeric makes the whole load raise (`float("xx")`), so a
"well-formed" (≥10 fields) line is not loaded at all — and nothing else is
either. -/
theorem c9_counterexample :
    get_amedas_nodes [rowShort, rowBadHeight] = Except.error () ∧
    10 ≤ (parseLine rowBadHeight).length := by
  decide

/-- C9 witness: a 5-field row between two parsing 10-field rows is skipped
and both neighbours load under their block codes. -/
theorem c9_registry_witness :
    (get_amedas_nodes [rowA, rowShort, rowB] = get_amedas_nodes [rowA, rowB] ∧
     ∃ m, get_amedas_nodes [rowA, rowB] = Except.ok m ∧
       ∀ l ∈ [rowA, rowB], ¬((parseLine l).length < 10) → rowKey l ∈ dictKeys m) :=
  c9_registry [rowA, rowB] [rowA] [rowB] rowShort (by decide) (by decide)

/-- C10: every `save` call creates the whole cache directory chain
`raw_html/{resolution}/{block_no}_{name}/{year}` (all its cumulative
prefixes) before the cache-existence check, for any starting filesystem and
force flag; and on a cache hit only those directories change — the files and
the network are untouched and the call reports a no-op. -/
theorem c10_dirs_created (self : AmedasNode) (net : Net) (w wHit : World) (res : String)
    (d : PyDate) (force : Bool)
    (hhit : fileExists wHit.files (cacheFilePath self res d) = true) :
    (self.save net w res d force).world.dirs =
      w.dirs ++ prefixesOf (cachePathList self res (dateToUse res d)) ∧
    (self.save net wHit res d false).ret = false ∧
    (self.save net wHit res d false).world.files = wHit.files ∧
    (self.save net wHit res d false).netCalls = [] := by
  refine ⟨save_world_dirs self net w res d force, ?_, ?_, ?_⟩ <;>
    (rw [save_cache_hit_eq self net wHit res d hhit]; try exact rfl)

/-- C10 witness: directories are created both by a forced no-data call on an
empty filesystem and by a pure cache hit, which leaves files and network
untouched. -/
theorem c10_dirs_created_witness :
    (node47401.save netFail ⟨[], []⟩ "hourly" ⟨2016, 4, 12⟩ true).world.dirs =
      (⟨[], []⟩ : World).dirs ++ prefixesOf (cachePathList node47401 "hourly"
        (dateToUse "hourly" ⟨2016, 4, 12⟩)) ∧
    (node47401.save netFail wCached "hourly" ⟨2016, 4, 12⟩ false).ret = false ∧
    (node47401.save netFail wCached "hourly" ⟨2016, 4, 12⟩ false).world.files = wCached.files ∧
    (node47401.save netFail wCached "hourly" ⟨2016, 4, 12⟩ false).netCalls = [] :=
  c10_dirs_created node47401 netFail ⟨[], []⟩ wCached "hourly" ⟨2016, 4, 12⟩ true (by decide)
